import Mathlib

/-!
Verification of the COMPLOT_CRAWLER crawl engine (`src/complot_crawler.py` and
the `src/fetchers` generation) against its natural-language specification.

The Python code is shallowly embedded: network operations are abstracted as
oracles (`Nat → FetchOutcome β` giving the outcome of each attempt, or
`Nat → ProbeOutcome` giving the response of each house-number probe), HTML
parsing — an external collaborator per the spec — is abstracted to the fields
the parser extracts, and the JSON files of the output directory are modelled
as an explicit `OutputDir` record.  Every definition mirrors one source
function, named after it.
-/

set_option autoImplicit false

set_option maxRecDepth 100000

namespace Complot

/-! ### Module constants (complot_crawler.py lines 36-41; identical values in
src/config/settings.py `CrawlerSettings`). -/

def MAX_CONCURRENT : Nat := 20

def REQUEST_TIMEOUT : Nat := 30

def MAX_RETRIES : Nat := 3

def RETRY_DELAY : Nat := 2

def SAVE_INTERVAL : Nat := 100

/-! ### Data model (complot_crawler.py lines 77-104) -/

/-- One row of the gush/helka table inside a building-detail page. -/
structure GushInfo where
  gush : String := ""
  helka : String := ""
  migrash : String := ""
  plan_number : String := ""
deriving DecidableEq, Repr

/-- One row of the requests/permits table inside a building-detail page. -/
structure RequestInfo where
  request_number : String := ""
  submission_date : String := ""
  last_event : String := ""
  applicant_name : String := ""
  permit_number : String := ""
  permit_date : String := ""
deriving DecidableEq, Repr

/-- One row of the plans table inside a building-detail page. -/
structure PlanInfo where
  plan_number : String := ""
  plan_name : String := ""
  status : String := ""
  status_date : String := ""
deriving DecidableEq, Repr

/-- `BuildingRecord` dataclass: a building file record from the search
results (complot_crawler.py lines 77-87). -/
structure BuildingRecord where
  tik_number : String
  address : String := ""
  gush : String := ""
  helka : String := ""
  migrash : String := ""
  street_code : Nat := 0
  street_name : String := ""
  house_number : Nat := 0
deriving DecidableEq, Repr

/-- `BuildingDetail` dataclass: detailed building file information
(complot_crawler.py lines 90-104), with the dataclass defaults. -/
structure BuildingDetail where
  tik_number : String
  address : String := ""
  neighborhood : String := ""
  addresses : List String := []
  gush_helka : List GushInfo := []
  plans : List PlanInfo := []
  requests : List RequestInfo := []
  stakeholders : List String := []
  documents : List String := []
  fetch_status : String := "pending"
  fetch_error : String := ""
  fetched_at : String := ""
deriving DecidableEq, Repr

/-! ### Detail fetch with retry (`ComplotCrawler._fetch_single_detail`,
complot_crawler.py lines 1248-1294, and `BaseFetcher.fetch_with_retry`,
src/fetchers/base.py lines 62-99).

A network attempt either yields an HTTP response (status plus body), raises
`asyncio.TimeoutError`, or raises some other exception (connection failure
etc.).  The oracle `attempts k` is the outcome of the call made with
`retry = k`. -/

/-- Outcome of one HTTP attempt; `β` is the (already decoded) body type. -/
inductive FetchOutcome (β : Type) where
  | response (status : Nat) (body : β)
  | timeout
  | failure (msg : String)
deriving DecidableEq, Repr

/-- The fields `_parse_building_detail` (lines 995-1082) extracts from a
detail page.  The markup-to-field mapping itself is the external Parser
collaborator; `hasNoDataMarker` is true when the page text contains one of
the two no-data marker phrases checked at line 1003. -/
structure TikHtml where
  hasNoDataMarker : Bool
  address : String := ""
  neighborhood : String := ""
  addresses : List String := []
  gush_helka : List GushInfo := []
  requests : List RequestInfo := []
  plans : List PlanInfo := []
deriving DecidableEq, Repr

/-- `ComplotCrawler._parse_building_detail` (lines 995-1082): a page carrying
the no-data marker becomes a terminal domain error, any other page becomes a
success detail carrying the extracted fields.  `now` stands for
`datetime.now().isoformat()`. -/
def parseBuildingDetail (html : TikHtml) (tik now : String) : BuildingDetail :=
  if html.hasNoDataMarker then
    { tik_number := tik, fetched_at := now,
      fetch_status := "error", fetch_error := "No data available" }
  else
    { tik_number := tik, address := html.address,
      neighborhood := html.neighborhood, addresses := html.addresses,
      gush_helka := html.gush_helka, requests := html.requests,
      plans := html.plans, fetch_status := "success", fetched_at := now }

/-- The error details built in the except/else branches of
`_fetch_single_detail`: `BuildingDetail(tik_number=...)` with `fetch_status`
and `fetch_error` assigned (the branches do not set `fetched_at`). -/
def errorDetail (tik reason : String) : BuildingDetail :=
  { tik_number := tik, fetch_status := "error", fetch_error := reason }

/-- `ComplotCrawler._fetch_single_detail` (lines 1248-1294).  Returns the
detail produced together with the list of back-off delays slept, in order.
A 200 response is parsed; a non-200 response is an immediate terminal
`HTTP <status>` error; a timeout retries after `RETRY_DELAY * 2 ^ retry`
while `retry < MAX_RETRIES` and otherwise is a terminal `Timeout` error;
any other exception is an immediate terminal error. -/
def fetchSingleDetail (attempts : Nat → FetchOutcome TikHtml)
    (tik now : String) (retry : Nat) : BuildingDetail × List Nat :=
  match attempts retry with
  | .response status html =>
      if status = 200 then (parseBuildingDetail html tik now, [])
      else (errorDetail tik ("HTTP " ++ toString status), [])
  | .timeout =>
      if _h : retry < MAX_RETRIES then
        let rest := fetchSingleDetail attempts tik now (retry + 1)
        (rest.1, RETRY_DELAY * 2 ^ retry :: rest.2)
      else (errorDetail tik "Timeout", [])
  | .failure msg => (errorDetail tik msg, [])
termination_by MAX_RETRIES + 1 - retry
decreasing_by simp [MAX_RETRIES] at *; omega

/-- `BaseFetcher.fetch_with_retry` (src/fetchers/base.py lines 62-99).
Returns the body on a 200 response, `none` on a non-200 response, and
retries with the same exponential back-off on BOTH timeout and any other
exception, giving `none` once retries are exhausted.  Also returns the
delays slept. -/
def fetchWithRetry (attempts : Nat → FetchOutcome String) (retry : Nat) :
    Option String × List Nat :=
  match attempts retry with
  | .response status body =>
      (if status = 200 then some body else none, [])
  | .timeout =>
      if _h : retry < MAX_RETRIES then
        let rest := fetchWithRetry attempts (retry + 1)
        (rest.1, RETRY_DELAY * 2 ^ retry :: rest.2)
      else (none, [])
  | .failure _ =>
      if _h : retry < MAX_RETRIES then
        let rest := fetchWithRetry attempts (retry + 1)
        (rest.1, RETRY_DELAY * 2 ^ retry :: rest.2)
      else (none, [])
termination_by MAX_RETRIES + 1 - retry
decreasing_by all_goals (simp [MAX_RETRIES] at *; omega)

/-! ### Record enumeration (`ComplotCrawler._fetch_records_for_street`,
complot_crawler.py lines 770-892, and the worker-path
`async_fetch_records_for_street`, src/fetchers/record_fetcher.py lines
200-345).

A house-number probe either raises an exception or yields a response with a
status and a parsed search page.  A page either carries the no-results
marker text, or has no `results-table`, or has a (possibly empty) list of
table rows; each row is abstracted to the fields the row parser extracts. -/

/-- One row of a search-results table, abstracted to what the parsing code
reads from it: the number of `td` cells, the extracted tik number (from the
`getBuilding` link or the first-link fallback, `none` when neither fires),
and the extracted address/gush/helka texts. -/
structure Row where
  numCells : Nat
  tik : Option String
  address : String := ""
  gush : String := ""
  helka : String := ""
deriving DecidableEq, Repr

/-- A parsed search-results page: whether the no-results marker text is
present, and the rows of the results table when the table exists. -/
structure SearchPage where
  noResultsMarker : Bool
  table : Option (List Row)
deriving DecidableEq, Repr

/-- Outcome of one house-number probe. -/
inductive ProbeOutcome where
  | exception
  | response (status : Nat) (page : SearchPage)
deriving DecidableEq, Repr

/-- The per-row record construction shared by both enumerators (lines
823-887 resp. 280-340): rows with fewer than three cells or without an
extractable tik number yield nothing. -/
def parseRowRecord (streetCode : Nat) (streetName : String) (houseNum : Nat)
    (r : Row) : Option BuildingRecord :=
  if r.numCells < 3 then none
  else
    match r.tik with
    | none => none
    | some tik =>
        some { tik_number := tik, address := r.address, gush := r.gush,
               helka := r.helka, migrash := "", street_code := streetCode,
               street_name := streetName, house_number := houseNum }

/-- The records one probe of `_fetch_records_for_street` contributes:
nothing on an exception, a non-200 status, a no-results marker, or a
missing table, else the parsed rows. -/
def recordsAtHouse (streetCode : Nat) (streetName : String) (houseNum : Nat)
    (pr : ProbeOutcome) : List BuildingRecord :=
  match pr with
  | .exception => []
  | .response status page =>
      if status ≠ 200 then []
      else if page.noResultsMarker then []
      else
        match page.table with
        | none => []
        | some rows => rows.filterMap (parseRowRecord streetCode streetName houseNum)

/-- A street candidate: `{code, name}` pair. -/
structure Street where
  code : Nat
  name : String
deriving DecidableEq, Repr

/-- Loop body of `ComplotCrawler._fetch_records_for_street` over the list of
house numbers still to probe.  Returns the records found together with the
house numbers for which a request was issued.  There is no early exit: every
house number in the list is probed. -/
def fetchRecordsForStreetGo (probe : Nat → ProbeOutcome) (street : Street) :
    List Nat → List BuildingRecord × List Nat
  | [] => ([], [])
  | h :: hs =>
      let here := recordsAtHouse street.code street.name h (probe h)
      let rest := fetchRecordsForStreetGo probe street hs
      (here ++ rest.1, h :: rest.2)

/-- `ComplotCrawler._fetch_records_for_street` (lines 770-892): probes house
numbers `range(1, 500)` unconditionally. -/
def fetchRecordsForStreet (probe : Nat → ProbeOutcome) (street : Street) :
    List BuildingRecord × List Nat :=
  fetchRecordsForStreetGo probe street (List.range' 1 499)

/-- The early-exit threshold `max_consecutive_empty` of
`async_fetch_records_for_street` (record_fetcher.py line 221). -/
def maxConsecutiveEmpty : Nat := 30

/-- Loop body of the worker-path `async_fetch_records_for_street`
(record_fetcher.py lines 216-345), carrying the `consecutive_empty`
counter: a 200 response with the no-results marker, without a table, or
with an empty row list increments the counter and breaks the loop once it
reaches `maxConsecutiveEmpty`; an exception or non-200 status leaves the
counter untouched; a response with rows resets it to zero. -/
def asyncFetchRecordsForStreetGo (probe : Nat → ProbeOutcome) (street : Street) :
    List Nat → Nat → List BuildingRecord × List Nat
  | [], _ => ([], [])
  | h :: hs, consecutiveEmpty =>
      match probe h with
      | .exception =>
          let rest := asyncFetchRecordsForStreetGo probe street hs consecutiveEmpty
          (rest.1, h :: rest.2)
      | .response status page =>
          if status ≠ 200 then
            let rest := asyncFetchRecordsForStreetGo probe street hs consecutiveEmpty
            (rest.1, h :: rest.2)
          else if page.noResultsMarker then
            if consecutiveEmpty + 1 ≥ maxConsecutiveEmpty then ([], [h])
            else
              let rest := asyncFetchRecordsForStreetGo probe street hs (consecutiveEmpty + 1)
              (rest.1, h :: rest.2)
          else
            match page.table with
            | none =>
                if consecutiveEmpty + 1 ≥ maxConsecutiveEmpty then ([], [h])
                else
                  let rest := asyncFetchRecordsForStreetGo probe street hs (consecutiveEmpty + 1)
                  (rest.1, h :: rest.2)
            | some rows =>
                if rows.isEmpty then
                  if consecutiveEmpty + 1 ≥ maxConsecutiveEmpty then ([], [h])
                  else
                    let rest := asyncFetchRecordsForStreetGo probe street hs (consecutiveEmpty + 1)
                    (rest.1, h :: rest.2)
                else
                  let here := rows.filterMap (parseRowRecord street.code street.name h)
                  let rest := asyncFetchRecordsForStreetGo probe street hs 0
                  (here ++ rest.1, h :: rest.2)

/-- `async_fetch_records_for_street` (record_fetcher.py lines 200-345):
probes house numbers `range(1, 500)` with the consecutive-empty early
exit, starting from a zero counter. -/
def asyncFetchRecordsForStreet (probe : Nat → ProbeOutcome) (street : Street) :
    List BuildingRecord × List Nat :=
  asyncFetchRecordsForStreetGo probe street (List.range' 1 499) 0

/-- A probe outcome the worker loop counts as empty: an HTTP-200 response
whose page carries the no-results marker, has no table, or has an empty
row list. -/
def emptyProbeResponse (pr : ProbeOutcome) : Bool :=
  match pr with
  | .response status page =>
      status == 200 &&
        (page.noResultsMarker ||
          (match page.table with
           | none => true
           | some rows => rows.isEmpty))
  | .exception => false

/-! ### Record deduplication (`ComplotCrawler.fetch_building_records`,
complot_crawler.py lines 894-982). -/

/-- One step of the `seen_tiks` deduplication (lines 934-937 and 955-960):
a record is appended only when its tik number has not been seen, which then
marks it seen. -/
def addRecordUnique (acc : List BuildingRecord × List String)
    (r : BuildingRecord) : List BuildingRecord × List String :=
  if r.tik_number ∈ acc.2 then acc
  else (acc.1 ++ [r], r.tik_number :: acc.2)

/-- Single-process path of `fetch_building_records` (lines 944-967): streets
are enumerated in order via `_fetch_records_for_street` and the results are
merged through the `seen_tiks` set. -/
def fetchBuildingRecords (probe : Street → Nat → ProbeOutcome)
    (streets : List Street) : List BuildingRecord :=
  (streets.foldl
    (fun acc street =>
      ((fetchRecordsForStreet (probe street) street).1).foldl addRecordUnique acc)
    ([], [])).1

/-- Multi-process path of `fetch_building_records` (lines 930-939): worker
chunk results arrive in completion order and are merged through the same
`seen_tiks` deduplication. -/
def fetchBuildingRecordsMulti (chunkResults : List (List BuildingRecord)) :
    List BuildingRecord :=
  (chunkResults.foldl (fun acc result => result.foldl addRecordUnique acc)
    ([], [])).1

/-! ### Street discovery (`ComplotCrawler._test_street`, complot_crawler.py
lines 560-631; the worker `_async_test_street` at lines 118-176 is the same
loop). -/

/-- The fixed probe list of canonical house numbers (line 568). -/
def houseNumbers : List Nat := [1, 2, 3, 5, 10, 20, 50]

/-- A parsed street-validation response: whether the body text carries the
positive-result marker (line 603), and the street name the table/row/cell
extraction (lines 605-624) produces, when it produces one — `none` when the
table, its rows, or an address cell containing the city name is missing. -/
structure TestPage where
  hasResultsMarker : Bool
  extractedStreetName : Option String
deriving DecidableEq, Repr

/-- Loop body of `_test_street` over the canonical house-number list: any
exception (timeouts included — the loop catches every exception) and any
non-200 status advance to the next probe; a 200 response returns
`{code, name}` only when the marker is present and a street name of length
greater than one was extracted from the same response, and otherwise also
advances. -/
def testStreetGo (probe : Nat → FetchOutcome TestPage) (streetCode : Nat) :
    List Nat → Option Street
  | [] => none
  | h :: hs =>
      match probe h with
      | .response status page =>
          if status ≠ 200 then testStreetGo probe streetCode hs
          else if page.hasResultsMarker then
            match page.extractedStreetName with
            | some name =>
                if 1 < name.length then some ⟨streetCode, name⟩
                else testStreetGo probe streetCode hs
            | none => testStreetGo probe streetCode hs
          else testStreetGo probe streetCode hs
      | .timeout => testStreetGo probe streetCode hs
      | .failure _ => testStreetGo probe streetCode hs

/-- `ComplotCrawler._test_street`: sequential probe of the canonical house
numbers. -/
def testStreet (probe : Nat → FetchOutcome TestPage) (streetCode : Nat) :
    Option Street :=
  testStreetGo probe streetCode houseNumbers

/-- Spec-side acceptance condition for one street-validation probe, used to
compare `_test_street` against the specified behaviour: the name returned
when the probe is conclusive.  A probe is accepted exactly when it is an
HTTP-200 response whose page carries the positive-result marker and yields
an extracted street name of length greater than one. -/
def probeAcceptedName (pr : FetchOutcome TestPage) : Option String :=
  match pr with
  | .response status page =>
      if status = 200 then
        if page.hasResultsMarker then
          match page.extractedStreetName with
          | some name => if 1 < name.length then some name else none
          | none => none
        else none
      else none
  | .timeout => none
  | .failure _ => none

/-! ### Degraded bakashot details (`ComplotCrawler.fetch_building_details`,
complot_crawler.py lines 1300-1321). -/

/-- The minimal detail synthesized from a `BuildingRecord` on the bakashot
path when no credential was supplied (lines 1306-1320): note its
`fetch_status` is the string "from_records". -/
def detailFromRecord (r : BuildingRecord) (now : String) : BuildingDetail :=
  { tik_number := r.tik_number,
    address := r.address,
    addresses := if r.address ≠ "" then [r.address] else [],
    gush_helka :=
      if r.gush ≠ "" then
        [{ gush := r.gush, helka := r.helka, migrash := r.migrash,
           plan_number := "" }]
      else [],
    fetch_status := "from_records",
    fetched_at := now }

/-! ### Python dict model.

`fetch_building_details` and `retry_failed_details` keep their completed
results in Python dicts keyed by tik number.  A dict is modelled as an
association list in key-insertion order: assigning to an existing key
replaces its value in place, assigning a fresh key appends it. -/

/-- `m[k] = v` on a Python dict. -/
def dictAssign {α : Type} (m : List (String × α)) (k : String) (v : α) :
    List (String × α) :=
  if m.any (fun p => p.1 == k) then
    m.map (fun p => if p.1 == k then (k, v) else p)
  else m ++ [(k, v)]

/-- `k in m` on a Python dict. -/
def dictContains {α : Type} (m : List (String × α)) (k : String) : Bool :=
  m.any (fun p => p.1 == k)

/-- A dict built from a list of key/value pairs (a Python dict
comprehension): first insertion fixes the position, later assignments to the
same key overwrite the value. -/
def dictOfList {α : Type} (entries : List (String × α)) : List (String × α) :=
  entries.foldl (fun m e => dictAssign m e.1 e.2) []

/-! ### Persisted state (`ComplotCrawler.__init__` lines 549-553,
`_save_records_checkpoint` lines 984-993, `_save_details_checkpoint` lines
1644-1654).

The output directory holds `checkpoint.json` (the target of
`self.checkpoint_file`), `details_checkpoint.json` (the file
`_save_details_checkpoint` writes), and `building_details.json`
(`self.details_file`, whose `records` key holds a list of details). -/

/-- Contents of a checkpoint JSON file, reduced to the two top-level keys
the crawler ever reads or writes: `details` and `records`. -/
structure CheckpointFile where
  detailsKey : Option (List BuildingDetail) := none
  recordsKey : Option (List BuildingRecord) := none
deriving DecidableEq, Repr

/-- The per-city output directory.  `none` models a missing file. -/
structure OutputDir where
  checkpointJson : Option CheckpointFile := none
  detailsCheckpointJson : Option CheckpointFile := none
  detailsJson : Option (List BuildingDetail) := none
deriving DecidableEq, Repr

/-- `ComplotCrawler._save_records_checkpoint` (lines 984-993): writes
`checkpoint.json` with a `records` key (and no `details` key). -/
def saveRecordsCheckpoint (dir : OutputDir) (records : List BuildingRecord) :
    OutputDir :=
  { dir with checkpointJson := some { recordsKey := some records } }

/-- `ComplotCrawler._save_details_checkpoint` (lines 1644-1654): writes
`details_checkpoint.json` with a `details` key. -/
def saveDetailsCheckpoint (dir : OutputDir) (details : List BuildingDetail) :
    OutputDir :=
  { dir with detailsCheckpointJson := some { detailsKey := some details } }

/-- The checkpoint-loading step of `fetch_building_details` (lines
1329-1341): when resuming and `self.checkpoint_file` — `checkpoint.json` —
exists, its `details` key (if present) is loaded into the `completed`
dict. -/
def loadCompletedFromCheckpoint (resume : Bool) (dir : OutputDir) :
    List (String × BuildingDetail) :=
  if resume then
    match dir.checkpointJson with
    | some data =>
        match data.detailsKey with
        | some ds => dictOfList (ds.map fun d => (d.tik_number, d))
        | none => []
    | none => []
  else []

/-- `ComplotCrawler.fetch_building_details` on the tikim path, single
process (lines 1327-1446): tik numbers are the distinct tiks of the input
records, `completed` is loaded from the checkpoint, and
`remaining = [t for t in tik_numbers if t not in completed]` is what gets
fetched; each result is stored under `result.tik_number`, the details
checkpoint and the final details file are written.  Returns the details
list, the tik numbers actually fetched over the network, and the updated
directory.  (If nothing remains the function returns the completed values
and writes nothing.) -/
def fetchBuildingDetails (fetchOne : String → BuildingDetail)
    (dir : OutputDir) (records : List BuildingRecord) (resume : Bool) :
    List BuildingDetail × List String × OutputDir :=
  let tikNumbers := (records.map (fun r => r.tik_number)).eraseDups
  let completed := loadCompletedFromCheckpoint resume dir
  let remaining := tikNumbers.filter (fun t => ¬ dictContains completed t)
  if remaining.isEmpty then (completed.map (fun p => p.2), [], dir)
  else
    let completed2 := remaining.foldl
      (fun m t => dictAssign m (fetchOne t).tik_number (fetchOne t)) completed
    let allDetails := completed2.map (fun p => p.2)
    let dir2 := saveDetailsCheckpoint dir allDetails
    (allDetails, remaining, { dir2 with detailsJson := some allDetails })

/-- `ComplotCrawler.retry_failed_details`, single process (lines 1448-1546):
loads `building_details.json`, re-fetches exactly the tiks whose
`fetch_status` is `error`, stores each result under `result.tik_number`,
and rewrites the details file.  Returns the details list, the tik numbers
re-fetched, and the updated directory. -/
def retryFailedDetails (fetchOne : String → BuildingDetail)
    (dir : OutputDir) : List BuildingDetail × List String × OutputDir :=
  match dir.detailsJson with
  | none => ([], [], dir)
  | some persisted =>
      let allDetails := dictOfList (persisted.map fun d => (d.tik_number, d))
      let failedTiks :=
        (allDetails.filter (fun p => p.2.fetch_status == "error")).map
          (fun p => p.1)
      if failedTiks.isEmpty then (allDetails.map (fun p => p.2), [], dir)
      else
        let updated := failedTiks.foldl
          (fun m t => dictAssign m (fetchOne t).tik_number (fetchOne t))
          allDetails
        let detailsList := updated.map (fun p => p.2)
        (detailsList, failedTiks, { dir with detailsJson := some detailsList })

/-! ### Street discovery diff and incremental crawl
(`ComplotCrawler.discover_streets`, lines 706-768, and the incremental
branch of `run_full_crawl`, lines 1708-1763).  The network scan
`_run_discovery` is abstracted as the fresh street list it produces. -/

/-- `ComplotCrawler.discover_streets` (lines 706-768) after the fresh scan:
computes `new_codes = fresh − baseline` and `removed_codes = baseline −
fresh` as code-set differences, the new streets, and persists the streets
snapshot as the full fresh set sorted by code — a replacement of the
baseline, not a union.  Returns (sorted streets, new streets, removed
codes). -/
def discoverStreets (baseline freshStreets : List Street) :
    List Street × List Street × List Nat :=
  let baselineCodes := baseline.map (fun s => s.code)
  let freshCodes := freshStreets.map (fun s => s.code)
  let newCodes := freshCodes.filter (fun c => ¬ c ∈ baselineCodes)
  let removedCodes := baselineCodes.filter (fun c => ¬ c ∈ freshCodes)
  let newStreets := freshStreets.filter (fun s => s.code ∈ newCodes)
  let sortedStreets := freshStreets.mergeSort (fun a b => a.code ≤ b.code)
  (sortedStreets, newStreets, removedCodes)

/-- The record merge of the incremental branch of `run_full_crawl` (lines
1733-1743): `seen_tiks` starts as the tiks of the existing records and each
new record is appended only when unseen. -/
def mergeNewRecords (existingRecords newRecords : List BuildingRecord) :
    List BuildingRecord :=
  (newRecords.foldl addRecordUnique
    (existingRecords, existingRecords.map (fun r => r.tik_number))).1

/-- Steps 1-2 of `run_full_crawl` with `force=False` and a cached records
file (lines 1708-1763), with record enumeration abstracted as `enumerate`:
when new streets exist, records are fetched for the new streets only and
merged into the existing snapshot; with no new streets the cached records
are used unchanged.  Returns the persisted streets snapshot, the persisted
records snapshot, and the streets actually enumerated. -/
def runIncrementalCrawl (baseline freshStreets : List Street)
    (existingRecords : List BuildingRecord)
    (enumerate : List Street → List BuildingRecord) :
    List Street × List BuildingRecord × List Street :=
  let d := discoverStreets baseline freshStreets
  let sortedStreets := d.1
  let newStreets := d.2.1
  if newStreets.isEmpty then (sortedStreets, existingRecords, [])
  else
    (sortedStreets, mergeNewRecords existingRecords (enumerate newStreets),
      newStreets)

/-! ### Process fan-out chunking (`_run_discovery` lines 646-658,
`fetch_building_details` lines 1358-1368; `retry_failed_details` lines
1479-1484 uses the same formula). -/

/-- `chunk_size = max(1, len(work) // self.workers)`. -/
def workChunkSize (n workers : Nat) : Nat := max 1 (n / workers)

/-- The slicing loop `for i in range(0, len(l), size): chunk = l[i:i+size]`.
The fuel argument bounds the number of slices taken; `l.length` suffices
whenever `size ≥ 1`, which every caller guarantees through `max 1 _`. -/
def listChunksGo {α : Type} (size : Nat) : Nat → List α → List (List α)
  | _, [] => []
  | 0, _ :: _ => []
  | fuel + 1, x :: xs =>
      ((x :: xs).take size) :: listChunksGo size fuel ((x :: xs).drop size)

/-- The chunk lists built at lines 1364-1368 (and 917-921, 1480-1484). -/
def listChunks {α : Type} (size : Nat) (l : List α) : List (List α) :=
  listChunksGo size l.length l

/-- The worker ranges of `_run_discovery` (lines 649-658): one range per
worker index, the last worker absorbing the remainder, ranges starting
past `end` dropped. -/
def discoveryRanges (startCode endCode workers : Nat) : List (Nat × Nat) :=
  let totalRange := endCode - startCode + 1
  let chunkSize := max 1 (totalRange / workers)
  (List.range workers).filterMap fun i =>
    let chunkStart := startCode + i * chunkSize
    let chunkEnd :=
      if i < workers - 1 then startCode + (i + 1) * chunkSize - 1 else endCode
    if chunkStart ≤ endCode then some (chunkStart, chunkEnd) else none

/-! ### Concrete instances used by the witnesses. -/

/-- Concrete page used by the retry witnesses. -/
def wHtml : TikHtml := { hasNoDataMarker := false, address := "street four" }

/-- The details a previous, interrupted run completed: tiks 100001
(success) and 100002 (error). -/
def wPrevDetails : List BuildingDetail :=
  [{ tik_number := "100001", fetch_status := "success" },
   { tik_number := "100002", fetch_status := "error",
     fetch_error := "Timeout" }]

/-- The records of the resumed run, requesting tiks 100001, 100002 and
100003. -/
def wRequestRecords : List BuildingRecord :=
  [{ tik_number := "100001" }, { tik_number := "100002" },
   { tik_number := "100003" }]

/-- Concrete persisted details list used by the retry-failed witness: one
success, one error. -/
def wPersisted : List BuildingDetail :=
  [{ tik_number := "500100", address := "kept address",
     fetch_status := "success" },
   { tik_number := "500200", fetch_status := "error",
     fetch_error := "Timeout" }]

/-- Concrete output directory whose details file holds `wPersisted`. -/
def wDir : OutputDir := { detailsJson := some wPersisted }

/-- Concrete fetch oracle for the retry-failed witness. -/
def wFetch : String → BuildingDetail :=
  fun t => { tik_number := t, fetch_status := "success" }

/-- Concrete per-street probe for the dedup witness: houses 1 and 2 both
surface tik 930008800, all later houses are empty. -/
def wProbe : Street → Nat → ProbeOutcome :=
  fun _ h =>
    if h ≤ 2 then
      .response 200
        { noResultsMarker := false,
          table := some [{ numCells := 5, tik := some "930008800" }] }
    else .response 200 { noResultsMarker := true, table := none }

/-- Baseline streets snapshot for the incremental-diff witness. -/
def wBaselineStreets : List Street :=
  [{ code := 1, name := "one" }, { code := 2, name := "two" },
   { code := 3, name := "three" }]

/-- Fresh scan result for the incremental-diff witness: street 1 is gone,
street 4 is new. -/
def wFreshStreets : List Street :=
  [{ code := 4, name := "four" }, { code := 2, name := "two" },
   { code := 3, name := "three" }]

/-- Previously persisted records for the incremental-diff witness. -/
def wExistingRecords : List BuildingRecord :=
  [{ tik_number := "100111", street_code := 1, house_number := 4 }]

/-- Enumeration oracle for the incremental-diff witness. -/
def wEnumerate : List Street → List BuildingRecord :=
  fun _ => [{ tik_number := "400400", street_code := 4, house_number := 1 }]

/-! Unfolding lemmas for the two retry loops. -/

theorem fetchSingleDetail_response {attempts : Nat → FetchOutcome TikHtml}
    {tik now : String} {retry status : Nat} {html : TikHtml}
    (h : attempts retry = .response status html) :
    fetchSingleDetail attempts tik now retry =
      if status = 200 then (parseBuildingDetail html tik now, [])
      else (errorDetail tik ("HTTP " ++ toString status), []) := by
  rw [fetchSingleDetail, h]

theorem fetchSingleDetail_timeout_retry {attempts : Nat → FetchOutcome TikHtml}
    {tik now : String} {retry : Nat}
    (h : attempts retry = .timeout) (hlt : retry < MAX_RETRIES) :
    fetchSingleDetail attempts tik now retry =
      ((fetchSingleDetail attempts tik now (retry + 1)).1,
        RETRY_DELAY * 2 ^ retry ::
          (fetchSingleDetail attempts tik now (retry + 1)).2) := by
  rw [fetchSingleDetail, h]
  simp [hlt]

theorem fetchSingleDetail_timeout_exhausted
    {attempts : Nat → FetchOutcome TikHtml} {tik now : String} {retry : Nat}
    (h : attempts retry = .timeout) (hge : ¬ retry < MAX_RETRIES) :
    fetchSingleDetail attempts tik now retry = (errorDetail tik "Timeout", []) := by
  rw [fetchSingleDetail, h]
  simp [hge]

theorem fetchSingleDetail_failure {attempts : Nat → FetchOutcome TikHtml}
    {tik now : String} {retry : Nat} {msg : String}
    (h : attempts retry = .failure msg) :
    fetchSingleDetail attempts tik now retry = (errorDetail tik msg, []) := by
  rw [fetchSingleDetail, h]

theorem fetchWithRetry_timeout_retry {attempts : Nat → FetchOutcome String}
    {retry : Nat} (h : attempts retry = .timeout) (hlt : retry < MAX_RETRIES) :
    fetchWithRetry attempts retry =
      ((fetchWithRetry attempts (retry + 1)).1,
        RETRY_DELAY * 2 ^ retry :: (fetchWithRetry attempts (retry + 1)).2) := by
  rw [fetchWithRetry, h]
  simp [hlt]

theorem fetchWithRetry_failure_retry {attempts : Nat → FetchOutcome String}
    {retry : Nat} {msg : String}
    (h : attempts retry = .failure msg) (hlt : retry < MAX_RETRIES) :
    fetchWithRetry attempts retry =
      ((fetchWithRetry attempts (retry + 1)).1,
        RETRY_DELAY * 2 ^ retry :: (fetchWithRetry attempts (retry + 1)).2) := by
  rw [fetchWithRetry, h]
  simp [hlt]

/-- Every run of `_fetch_single_detail` ends with status `success` or
`error` — the status left `pending` at creation is overwritten exactly once
by the attempt outcome. -/
theorem fetchSingleDetail_status (attempts : Nat → FetchOutcome TikHtml)
    (tik now : String) (retry : Nat) :
    (fetchSingleDetail attempts tik now retry).1.fetch_status = "success" ∨
    (fetchSingleDetail attempts tik now retry).1.fetch_status = "error" := by
  have H : ∀ (n r : Nat), MAX_RETRIES + 1 - r ≤ n →
      (fetchSingleDetail attempts tik now r).1.fetch_status = "success" ∨
      (fetchSingleDetail attempts tik now r).1.fetch_status = "error" := by
    intro n
    induction n with
    | zero =>
      intro r hr
      have hge : ¬ r < MAX_RETRIES := by omega
      cases h : attempts r with
      | response status html =>
        rw [fetchSingleDetail_response h]
        by_cases hs : status = 200
        · simp only [hs, if_pos rfl]
          by_cases hm : html.hasNoDataMarker
          · right; simp [parseBuildingDetail, hm]
          · left; simp [parseBuildingDetail, hm]
        · right; simp [hs, errorDetail]
      | timeout =>
        rw [fetchSingleDetail_timeout_exhausted h hge]
        right; simp [errorDetail]
      | failure msg =>
        rw [fetchSingleDetail_failure h]
        right; simp [errorDetail]
    | succ n ih =>
      intro r hr
      cases h : attempts r with
      | response status html =>
        rw [fetchSingleDetail_response h]
        by_cases hs : status = 200
        · simp only [hs, if_pos rfl]
          by_cases hm : html.hasNoDataMarker
          · right; simp [parseBuildingDetail, hm]
          · left; simp [parseBuildingDetail, hm]
        · right; simp [hs, errorDetail]
      | timeout =>
        by_cases hlt : r < MAX_RETRIES
        · rw [fetchSingleDetail_timeout_retry h hlt]
          exact ih (r + 1) (by omega)
        · rw [fetchSingleDetail_timeout_exhausted h hlt]
          right; simp [errorDetail]
      | failure msg =>
        rw [fetchSingleDetail_failure h]
        right; simp [errorDetail]
  exact H (MAX_RETRIES + 1 - retry) retry le_rfl

/-- `_fetch_single_detail` always returns a detail carrying the very tik
number it was asked for (every branch constructs it from `tik_number`). -/
theorem fetchSingleDetail_tik (attempts : Nat → FetchOutcome TikHtml)
    (tik now : String) (retry : Nat) :
    (fetchSingleDetail attempts tik now retry).1.tik_number = tik := by
  have H : ∀ (n r : Nat), MAX_RETRIES + 1 - r ≤ n →
      (fetchSingleDetail attempts tik now r).1.tik_number = tik := by
    intro n
    induction n with
    | zero =>
      intro r hr
      have hge : ¬ r < MAX_RETRIES := by omega
      cases h : attempts r with
      | response status html =>
        rw [fetchSingleDetail_response h]
        by_cases hs : status = 200 <;>
          simp [hs, parseBuildingDetail, errorDetail] <;>
          split <;> rfl
      | timeout =>
        rw [fetchSingleDetail_timeout_exhausted h hge]; rfl
      | failure msg =>
        rw [fetchSingleDetail_failure h]; rfl
    | succ n ih =>
      intro r hr
      cases h : attempts r with
      | response status html =>
        rw [fetchSingleDetail_response h]
        by_cases hs : status = 200 <;>
          simp [hs, parseBuildingDetail, errorDetail] <;>
          split <;> rfl
      | timeout =>
        by_cases hlt : r < MAX_RETRIES
        · rw [fetchSingleDetail_timeout_retry h hlt]
          exact ih (r + 1) (by omega)
        · rw [fetchSingleDetail_timeout_exhausted h hlt]; rfl
      | failure msg =>
        rw [fetchSingleDetail_failure h]; rfl
  exact H (MAX_RETRIES + 1 - retry) retry le_rfl

/-! ### Claims C6 and C3: retry/backoff timing and transport error
classification -/

/-- C6: an operation that times out exactly (MAX_RETRIES − 1) times and then
succeeds returns the success result (having slept base·2^k for k = 0, 1, …);
an operation that keeps timing out returns a terminal timeout error, each
individual delay being base·2^attempt and the total delay slept being the sum
over k in [0, MAX_RETRIES) of base·2^k. -/
theorem retry_backoff_timing
    (a1 a2 : Nat → FetchOutcome TikHtml) (html : TikHtml) (tik now : String)
    (h1 : ∀ k, k < MAX_RETRIES - 1 → a1 k = .timeout)
    (h2 : a1 (MAX_RETRIES - 1) = .response 200 html)
    (h3 : ∀ k, a2 k = .timeout) :
    fetchSingleDetail a1 tik now 0 =
      (parseBuildingDetail html tik now,
        (List.range (MAX_RETRIES - 1)).map fun k => RETRY_DELAY * 2 ^ k) ∧
    fetchSingleDetail a2 tik now 0 =
      (errorDetail tik "Timeout",
        (List.range MAX_RETRIES).map fun k => RETRY_DELAY * 2 ^ k) ∧
    (fetchSingleDetail a2 tik now 0).2.sum =
      ((List.range MAX_RETRIES).map fun k => RETRY_DELAY * 2 ^ k).sum := by
  have e0 : a1 0 = .timeout := h1 0 (by decide)
  have e1 : a1 1 = .timeout := h1 1 (by decide)
  have e2 : a1 2 = .response 200 html := by simpa [MAX_RETRIES] using h2
  have hA : fetchSingleDetail a1 tik now 0 =
      (parseBuildingDetail html tik now,
        (List.range (MAX_RETRIES - 1)).map fun k => RETRY_DELAY * 2 ^ k) := by
    rw [fetchSingleDetail_timeout_retry e0 (by decide),
      fetchSingleDetail_timeout_retry e1 (by decide),
      fetchSingleDetail_response e2]
    simp [MAX_RETRIES, RETRY_DELAY]
    decide
  have hB : fetchSingleDetail a2 tik now 0 =
      (errorDetail tik "Timeout",
        (List.range MAX_RETRIES).map fun k => RETRY_DELAY * 2 ^ k) := by
    rw [fetchSingleDetail_timeout_retry (h3 0) (by decide),
      fetchSingleDetail_timeout_retry (h3 1) (by decide),
      fetchSingleDetail_timeout_retry (h3 2) (by decide),
      fetchSingleDetail_timeout_exhausted (h3 3) (by decide)]
    simp [MAX_RETRIES, RETRY_DELAY]
    decide
  exact ⟨hA, hB, by rw [hB]⟩

/-- Witness for `retry_backoff_timing` at a concrete pair of attempt
oracles: two timeouts then a 200 response yield the parsed success detail
after delays [2, 4]; perpetual timeouts yield the terminal timeout error
after delays [2, 4, 8], totalling 14 = 2·1 + 2·2 + 2·4. -/
theorem retry_backoff_timing_witness :
    fetchSingleDetail (fun k => if k < 2 then .timeout else .response 200 wHtml)
        "389000400" "t0" 0 =
      (parseBuildingDetail wHtml "389000400" "t0", [2, 4]) ∧
    fetchSingleDetail (fun _ => .timeout) "389000400" "t0" 0 =
      (errorDetail "389000400" "Timeout", [2, 4, 8]) := by
  obtain ⟨hA, hB, -⟩ := retry_backoff_timing
    (fun k => if k < 2 then .timeout else .response 200 wHtml)
    (fun _ => .timeout) wHtml "389000400" "t0"
    (fun k hk => by
      match k with
      | 0 => rfl
      | 1 => rfl
      | k + 2 => simp [MAX_RETRIES] at hk)
    (by rfl) (fun _ => rfl)
  refine ⟨hA.trans ?_, hB.trans ?_⟩ <;> decide

/-- C3 counterexample: a connection failure (a non-timeout exception) on the
very first attempt of `_fetch_single_detail` is recorded as a terminal error
immediately — zero back-off sleeps — contradicting the claim that no
transport failure is terminal on the first occurrence. -/
theorem transport_failure_first_occurrence_cx :
    fetchSingleDetail (fun _ => .failure "Cannot connect to host")
        "930008800" "t0" 0 =
      (errorDetail "930008800" "Cannot connect to host", []) :=
  fetchSingleDetail_failure rfl

/-- C3 amended: in `_fetch_single_detail` only timeouts are retried — an
identifier timing out on every attempt is recorded as a terminal `Timeout`
error only after MAX_RETRIES back-off sleeps of base·2^k, while any other
transport exception is recorded as terminal immediately with no sleep; in
`BaseFetcher.fetch_with_retry` both kinds are retried: when every attempt
fails with either a timeout or a connection failure, the fetch gives up only
after the full MAX_RETRIES back-off schedule. -/
theorem transport_error_classification
    (aT aF : Nat → FetchOutcome TikHtml) (aW : Nat → FetchOutcome String)
    (tik now msg : String)
    (hT : ∀ k, aT k = .timeout)
    (hF : aF 0 = .failure msg)
    (hW : ∀ k, aW k = .timeout ∨ aW k = .failure msg) :
    fetchSingleDetail aT tik now 0 =
      (errorDetail tik "Timeout",
        (List.range MAX_RETRIES).map fun k => RETRY_DELAY * 2 ^ k) ∧
    fetchSingleDetail aF tik now 0 = (errorDetail tik msg, []) ∧
    fetchWithRetry aW 0 =
      (none, (List.range MAX_RETRIES).map fun k => RETRY_DELAY * 2 ^ k) := by
  refine ⟨?_, fetchSingleDetail_failure hF, ?_⟩
  · rw [fetchSingleDetail_timeout_retry (hT 0) (by decide),
      fetchSingleDetail_timeout_retry (hT 1) (by decide),
      fetchSingleDetail_timeout_retry (hT 2) (by decide),
      fetchSingleDetail_timeout_exhausted (hT 3) (by decide)]
    simp [MAX_RETRIES, RETRY_DELAY]
    decide
  · have step : ∀ k, k < MAX_RETRIES →
        fetchWithRetry aW k =
          ((fetchWithRetry aW (k + 1)).1,
            RETRY_DELAY * 2 ^ k :: (fetchWithRetry aW (k + 1)).2) := by
      intro k hk
      rcases hW k with h | h
      · exact fetchWithRetry_timeout_retry h hk
      · exact fetchWithRetry_failure_retry h hk
    have last : fetchWithRetry aW 3 = (none, []) := by
      rcases hW 3 with h | h <;> rw [fetchWithRetry, h] <;> simp [MAX_RETRIES]
    rw [step 0 (by decide), step 1 (by decide), step 2 (by decide), last]
    simp [MAX_RETRIES, RETRY_DELAY]
    decide

/-- Witness for `transport_error_classification` at concrete oracles: a
perpetually timing-out fetch ends as a Timeout error after sleeping
[2, 4, 8]; a first-attempt connection failure ends immediately with no
sleeps; `fetch_with_retry` against alternating timeout/connection failures
returns None after the full schedule [2, 4, 8]. -/
theorem transport_error_classification_witness :
    fetchSingleDetail (fun _ => .timeout) "100200300" "t1" 0 =
      (errorDetail "100200300" "Timeout", [2, 4, 8]) ∧
    fetchSingleDetail (fun _ => .failure "Connection reset")
        "100200300" "t1" 0 =
      (errorDetail "100200300" "Connection reset", []) ∧
    fetchWithRetry
        (fun k => if k % 2 = 0 then .timeout else .failure "Connection reset")
        0 = (none, [2, 4, 8]) := by
  obtain ⟨hA, hB, hC⟩ := transport_error_classification
    (fun _ => .timeout) (fun _ => .failure "Connection reset")
    (fun k => if k % 2 = 0 then .timeout else .failure "Connection reset")
    "100200300" "t1" "Connection reset"
    (fun _ => rfl) rfl
    (fun k => by
      by_cases h : k % 2 = 0
      · left; simp [h]
      · right; simp [h])
  refine ⟨hA.trans ?_, hB, hC.trans ?_⟩ <;> decide

/-! ### Claim C1: resume of the detail-fetch phase -/

/-- C1 (code bug): the resume logic of `fetch_building_details` never sees
the checkpoint that `_save_details_checkpoint` persisted.  The saver writes
`details_checkpoint.json`, while the loader reads `self.checkpoint_file` =
`checkpoint.json` — a file only ever written by `_save_records_checkpoint`
and never with a `details` key.  Concretely: with completed details for
tiks 100001 and 100002 persisted by a previous run and records requesting
tiks 100001, 100002, 100003, the resumed fetch loads an empty completed
map and re-fetches all three tiks; had the same data been under the
`details` key of `checkpoint.json`, only 100003 would have been fetched —
`remaining = requested − completed` itself is computed correctly. -/
theorem details_resume_ignores_saved_checkpoint :
    loadCompletedFromCheckpoint true
        (saveDetailsCheckpoint {} wPrevDetails) = [] ∧
    (fetchBuildingDetails
        (fun t => { tik_number := t, fetch_status := "success" })
        (saveDetailsCheckpoint {} wPrevDetails)
        wRequestRecords true).2.1 = ["100001", "100002", "100003"] ∧
    (fetchBuildingDetails
        (fun t => { tik_number := t, fetch_status := "success" })
        { checkpointJson := some { detailsKey := some wPrevDetails } }
        wRequestRecords true).2.1 = ["100003"] := by
  decide

/-! ### Claim C2: early-exit heuristic of record enumeration -/

/-- The single-process enumerator issues a request for every house number
in its list — it has no early exit. -/
theorem fetchRecordsForStreetGo_issued (probe : Nat → ProbeOutcome)
    (street : Street) :
    ∀ hs : List Nat, (fetchRecordsForStreetGo probe street hs).2 = hs := by
  intro hs
  induction hs with
  | nil => rfl
  | cons h t ih => simp [fetchRecordsForStreetGo, ih]

/-- One step of the worker loop on a probe it counts as empty: the counter
is incremented and the loop breaks once it reaches the threshold. -/
theorem asyncFetchRecordsForStreetGo_empty (probe : Nat → ProbeOutcome)
    (street : Street) (h : Nat) (hs : List Nat) (ce : Nat)
    (he : emptyProbeResponse (probe h) = true) :
    asyncFetchRecordsForStreetGo probe street (h :: hs) ce =
      if ce + 1 ≥ maxConsecutiveEmpty then ([], [h])
      else
        ((asyncFetchRecordsForStreetGo probe street hs (ce + 1)).1,
          h :: (asyncFetchRecordsForStreetGo probe street hs (ce + 1)).2) := by
  cases hp : probe h with
  | exception => rw [hp] at he; simp [emptyProbeResponse] at he
  | response status page =>
    rw [hp] at he
    rcases page with ⟨marker, table⟩
    simp only [emptyProbeResponse, Bool.and_eq_true, beq_iff_eq] at he
    obtain ⟨hstatus, hrest⟩ := he
    subst hstatus
    simp only [asyncFetchRecordsForStreetGo, hp]
    cases marker with
    | true => simp
    | false =>
      simp only [Bool.or_eq_true] at hrest
      rcases hrest with hrest | hrest
      · simp at hrest
      · cases table with
        | none => simp
        | some rows =>
          simp only at hrest
          simp [hrest]

/-- The worker loop stops at the probe on which the consecutive-empty
counter reaches the threshold: if the next `k` probes are all empty (with
`ce + k` hitting the threshold), exactly those `k` probes are issued and no
record is returned. -/
theorem asyncFetchRecordsForStreetGo_stops (probe : Nat → ProbeOutcome)
    (street : Street) :
    ∀ (k ce : Nat) (hs : List Nat), ce + k = maxConsecutiveEmpty → 1 ≤ k →
      k ≤ hs.length →
      (∀ h ∈ hs.take k, emptyProbeResponse (probe h) = true) →
      asyncFetchRecordsForStreetGo probe street hs ce = ([], hs.take k) := by
  intro k
  induction k with
  | zero => intro ce hs _ hpos; omega
  | succ n ih =>
    intro ce hs hsum _ hlen hemp
    cases hs with
    | nil => simp at hlen
    | cons h t =>
      have he := hemp h (by simp [List.take_succ_cons])
      rw [asyncFetchRecordsForStreetGo_empty probe street h t ce he]
      by_cases hc : ce + 1 ≥ maxConsecutiveEmpty
      · rw [if_pos hc]
        have hn0 : n = 0 := by omega
        subst hn0
        simp [List.take_succ_cons]
      · rw [if_neg hc]
        have hn : 1 ≤ n := by omega
        have hlen2 : n ≤ t.length := by
          simp only [List.length_cons] at hlen; omega
        rw [ih (ce + 1) t (by omega) hn hlen2
          (fun x hx => hemp x (by simp [List.take_succ_cons, hx]))]
        simp [List.take_succ_cons]

/-- C2 amended: the early-exit heuristic lives only in the worker-path
enumerator `async_fetch_records_for_street`: when the first 30 probes of a
street are HTTP-200 responses carrying the no-results marker, no results
table, or an empty table body, enumeration stops at probe 30 — exactly
houses 1..30 are requested and no record is returned (so a street whose
probes are all empty stops scanning at probe 30).  The single-process
`ComplotCrawler._fetch_records_for_street` has no early exit and issues
requests for every house number 1..499 regardless of the responses. -/
theorem early_exit_heuristic (probe : Nat → ProbeOutcome) (street : Street)
    (hemp : ∀ h ∈ List.range' 1 maxConsecutiveEmpty,
      emptyProbeResponse (probe h) = true) :
    asyncFetchRecordsForStreet probe street =
      ([], List.range' 1 maxConsecutiveEmpty) ∧
    ∀ probe2 : Nat → ProbeOutcome,
      (fetchRecordsForStreet probe2 street).2 = List.range' 1 499 := by
  constructor
  · have htake : (List.range' 1 499).take maxConsecutiveEmpty =
        List.range' 1 maxConsecutiveEmpty := by decide
    unfold asyncFetchRecordsForStreet
    rw [asyncFetchRecordsForStreetGo_stops probe street maxConsecutiveEmpty 0
      (List.range' 1 499) (by omega) (by decide) (by decide)
      (fun x hx => hemp x (htake ▸ hx))]
    rw [htake]
  · intro probe2
    exact fetchRecordsForStreetGo_issued probe2 street _

/-- Witness for `early_exit_heuristic` at the all-empty probe family. -/
theorem early_exit_heuristic_witness :
    asyncFetchRecordsForStreet
        (fun _ => .response 200 { noResultsMarker := true, table := none })
        { code := 389, name := "sample two" } =
      ([], List.range' 1 maxConsecutiveEmpty) ∧
    (fetchRecordsForStreet
        (fun _ => .response 200 { noResultsMarker := true, table := none })
        { code := 389, name := "sample two" }).2 = List.range' 1 499 := by
  obtain ⟨h1, h2⟩ := early_exit_heuristic
    (fun _ => .response 200 { noResultsMarker := true, table := none })
    { code := 389, name := "sample two" } (by decide)
  exact ⟨h1, h2 _⟩

/-- C2 counterexample: on the cited single-process
`_fetch_records_for_street`, a street whose every probe is empty (in
particular its first 40 probes) still issues all 499 house-number requests —
probe 31 and beyond are issued, so enumeration does not stop at probe 30. -/
theorem early_exit_single_process_cx :
    ((fetchRecordsForStreet
        (fun _ => .response 200 { noResultsMarker := true, table := none })
        { code := 389, name := "sample" }).2).length = 499 ∧
    31 ∈ (fetchRecordsForStreet
        (fun _ => .response 200 { noResultsMarker := true, table := none })
        { code := 389, name := "sample" }).2 := by
  rw [fetchRecordsForStreet, fetchRecordsForStreetGo_issued]
  exact ⟨by decide, by decide⟩

/-! ### Claim C4: process fan-out chunking -/

/-- The chunk slicing loses no work item: the chunks concatenate back to
the original list (whenever the chunk size is positive, which
`workChunkSize` guarantees). -/
theorem listChunksGo_join {α : Type} (size : Nat) (hsz : 1 ≤ size) :
    ∀ (fuel : Nat) (l : List α), l.length ≤ fuel →
      (listChunksGo size fuel l).flatten = l := by
  intro fuel
  induction fuel with
  | zero =>
    intro l hl
    cases l with
    | nil => rfl
    | cons x xs => simp at hl
  | succ n ih =>
    intro l hl
    cases l with
    | nil => rfl
    | cons x xs =>
      simp only [listChunksGo, List.flatten_cons]
      rw [ih _ (by
        simp only [List.length_drop, List.length_cons]
        simp only [List.length_cons] at hl
        omega)]
      exact List.take_append_drop size (x :: xs)

/-- Every chunk has at most `size` elements. -/
theorem listChunksGo_chunk_le {α : Type} (size : Nat) :
    ∀ (fuel : Nat) (l : List α) (c : List α),
      c ∈ listChunksGo size fuel l → c.length ≤ size := by
  intro fuel
  induction fuel with
  | zero =>
    intro l c hc
    cases l with
    | nil => simp [listChunksGo] at hc
    | cons x xs => simp [listChunksGo] at hc
  | succ n ih =>
    intro l c hc
    cases l with
    | nil => simp [listChunksGo] at hc
    | cons x xs =>
      simp only [listChunksGo, List.mem_cons] at hc
      rcases hc with hc | hc
      · subst hc
        simp [List.length_take]
      · exact ih _ c hc

/-- When the chunk size divides the length exactly, the number of chunks is
the quotient. -/
theorem listChunksGo_length_exact {α : Type} (q : Nat) (hq : 1 ≤ q) :
    ∀ (w fuel : Nat) (l : List α), l.length = w * q → l.length ≤ fuel →
      (listChunksGo q fuel l).length = w := by
  intro w
  induction w with
  | zero =>
    intro fuel l hlen _
    have hnil : l = [] := List.eq_nil_of_length_eq_zero (by simpa using hlen)
    subst hnil
    cases fuel <;> rfl
  | succ m ih =>
    intro fuel l hlen hfuel
    cases l with
    | nil =>
      rw [Nat.succ_mul] at hlen
      simp at hlen
      omega
    | cons x xs =>
      cases fuel with
      | zero => simp at hfuel
      | succ f =>
        simp only [listChunksGo, List.length_cons]
        rw [ih f (List.drop q (x :: xs))
          (by
            simp only [List.length_drop, List.length_cons]
            rw [Nat.succ_mul] at hlen
            simp only [List.length_cons] at hlen
            omega)
          (by
            simp only [List.length_drop, List.length_cons]
            simp only [List.length_cons] at hfuel
            omega)]

/-- C4 amended: the multi-process fan-out partitions the work list into
contiguous chunks of size `max 1 (n / W)` — an equal split, one chunk per
worker, not many small chunks: no item is lost, each chunk is bounded by
that size, when `W` divides `n` there are exactly `W` chunks, and the
street-discovery range split likewise never produces more than `W`
ranges.  The chunk size grows with `n` and is not bounded independently of
`W`. -/
theorem process_fanout_chunking {α : Type} (l : List α)
    (workers startCode endCode : Nat) (hw : 1 ≤ workers) :
    (listChunks (workChunkSize l.length workers) l).flatten = l ∧
    (∀ c ∈ listChunks (workChunkSize l.length workers) l,
        c.length ≤ workChunkSize l.length workers) ∧
    (workers ∣ l.length → workers ≤ l.length →
      (listChunks (workChunkSize l.length workers) l).length = workers) ∧
    (discoveryRanges startCode endCode workers).length ≤ workers := by
  refine ⟨?_, ?_, ?_, ?_⟩
  · exact listChunksGo_join _ (le_max_left 1 _) _ _ le_rfl
  · intro c hc
    exact listChunksGo_chunk_le _ _ _ c hc
  · rintro ⟨q, hq⟩ hle
    have hq1 : 1 ≤ q := by
      by_contra hcon
      have hq0 : q = 0 := by omega
      rw [hq0, Nat.mul_zero] at hq
      omega
    have hsize : workChunkSize l.length workers = q := by
      unfold workChunkSize
      rw [hq, Nat.mul_div_cancel_left q (by omega)]
      omega
    unfold listChunks
    rw [hsize]
    exact listChunksGo_length_exact q hq1 workers l.length l hq le_rfl
  · exact le_trans (List.length_filterMap_le _ _) (by simp)

/-- Witness for `process_fanout_chunking` on a 100-item work list with 4
workers: nothing is lost and there are exactly 4 chunks. -/
theorem process_fanout_chunking_witness :
    (listChunks (workChunkSize (List.range 100).length 4)
        (List.range 100)).flatten = List.range 100 ∧
    (listChunks (workChunkSize (List.range 100).length 4)
        (List.range 100)).length = 4 := by
  obtain ⟨h1, -, h3, -⟩ :=
    process_fanout_chunking (List.range 100) 4 1 100 (by decide)
  exact ⟨h1, h3 (by decide) (by decide)⟩

/-- C4 counterexample: for 100 work items and 4 workers the chunk size is
exactly `100 / 4 = 25` — not "much smaller than n/W" — and both the details
chunking and the discovery range split produce exactly 4 chunks, one per
worker, so more chunks than workers never exist. -/
theorem fanout_chunking_equal_split_cx :
    workChunkSize 100 4 = 100 / 4 ∧
    (listChunks (workChunkSize 100 4) (List.range 100)).length = 4 ∧
    (discoveryRanges 1 100 4).length = 4 := by
  decide

/-! ### Claim C8: BuildingDetail status domain -/

/-- C8 counterexample: the degraded bakashot path of
`fetch_building_details` synthesizes details whose `fetch_status` is
`from_records` — outside the claimed domain `{pending, success, error}`. -/
theorem detail_status_domain_cx :
    (detailFromRecord
        { tik_number := "930008800", address := "sample addr 3",
          gush := "6158", helka := "120" } "t5").fetch_status =
      "from_records" ∧
    (detailFromRecord
        { tik_number := "930008800", address := "sample addr 3",
          gush := "6158", helka := "120" } "t5").fetch_status ≠ "pending" ∧
    (detailFromRecord
        { tik_number := "930008800", address := "sample addr 3",
          gush := "6158", helka := "120" } "t5").fetch_status ≠ "success" ∧
    (detailFromRecord
        { tik_number := "930008800", address := "sample addr 3",
          gush := "6158", helka := "120" } "t5").fetch_status ≠ "error" := by
  decide

/-- C8 amended: a `BuildingDetail` is created with status `pending` (the
dataclass default); every `_fetch_single_detail` run overwrites it to
exactly one of `success` or `error`; and the degraded bakashot path (no
credential) additionally produces the out-of-domain status `from_records`,
so the full status domain is `{pending, success, error, from_records}`. -/
theorem detail_status_transitions (attempts : Nat → FetchOutcome TikHtml)
    (tik now : String) (r : BuildingRecord) :
    ({ tik_number := tik } : BuildingDetail).fetch_status = "pending" ∧
    ((fetchSingleDetail attempts tik now 0).1.fetch_status = "success" ∨
      (fetchSingleDetail attempts tik now 0).1.fetch_status = "error") ∧
    (detailFromRecord r now).fetch_status = "from_records" :=
  ⟨rfl, fetchSingleDetail_status attempts tik now 0, rfl⟩

/-! ### Claim C9: street discovery probe semantics -/

/-- The `_test_street` loop returns the pair built from the first probe
whose outcome is accepted — an HTTP-200 response with the positive marker
and an extracted street name longer than one character. -/
theorem testStreetGo_findSome (probe : Nat → FetchOutcome TestPage)
    (streetCode : Nat) :
    ∀ hs : List Nat,
      testStreetGo probe streetCode hs =
        (hs.findSome? fun h => probeAcceptedName (probe h)).map
          (fun name => { code := streetCode, name := name }) := by
  intro hs
  induction hs with
  | nil => rfl
  | cons h t ih =>
    rw [List.findSome?_cons]
    cases hp : probe h with
    | timeout => simp [testStreetGo, hp, probeAcceptedName, ih]
    | failure msg => simp [testStreetGo, hp, probeAcceptedName, ih]
    | response status page =>
      by_cases hst : status = 200
      · subst hst
        rcases page with ⟨marker, nameOpt⟩
        cases marker with
        | false => simp [testStreetGo, hp, probeAcceptedName, ih]
        | true =>
          cases nameOpt with
          | none => simp [testStreetGo, hp, probeAcceptedName, ih]
          | some name =>
            by_cases hlen : 1 < name.length
            · simp [testStreetGo, hp, probeAcceptedName, hlen]
            · simp [testStreetGo, hp, probeAcceptedName, hlen, ih]
      · simp [testStreetGo, hp, probeAcceptedName, hst, ih]

/-- C9 amended: `_test_street` probes the fixed ascending list
1, 2, 3, 5, 10, 20, 50 and returns the `{code, name}` pair of the FIRST
probe that is an HTTP-200 response containing the positive marker AND from
which a street name of length greater than one is extracted; a non-200
status, an exception, a marker-less response, or a response whose name
extraction fails each merely advance to the next probe; the code is
treated as invalid exactly when no probe in the list is accepted in this
sense. -/
theorem street_probe_semantics (probe : Nat → FetchOutcome TestPage)
    (streetCode : Nat) :
    testStreet probe streetCode =
      (houseNumbers.findSome? fun h => probeAcceptedName (probe h)).map
        (fun name => { code := streetCode, name := name }) ∧
    (testStreet probe streetCode = none ↔
      ∀ h ∈ houseNumbers, probeAcceptedName (probe h) = none) := by
  have h := testStreetGo_findSome probe streetCode houseNumbers
  refine ⟨h, ?_⟩
  unfold testStreet
  rw [h, Option.map_eq_none']
  exact List.findSome?_eq_none_iff

/-- C9 counterexample: a probe whose response carries the positive-result
marker but from which no street name can be extracted does NOT make
`_test_street` return at that probe; with every other probe marker-less,
the code is treated as invalid even though a probe yielded the positive
marker. -/
theorem street_probe_marker_without_name_cx :
    testStreet
        (fun h =>
          if h = 1 then
            .response 200
              { hasResultsMarker := true, extractedStreetName := none }
          else
            .response 200
              { hasResultsMarker := false, extractedStreetName := none })
        389 = none := by
  decide

/-! ### Claim C7: record deduplication -/

/-- Folding `addRecordUnique` keeps the seen-set invariant: the
accumulated tik numbers are duplicate-free, a tik is accumulated exactly
when it was already accumulated or occurs in the folded records, and the
seen set tracks the accumulated tiks. -/
theorem addRecordUnique_foldl (l : List BuildingRecord) :
    ∀ acc : List BuildingRecord × List String,
      (∀ x, x ∈ acc.2 ↔ x ∈ acc.1.map (fun r => r.tik_number)) →
      (acc.1.map (fun r => r.tik_number)).Nodup →
      ((l.foldl addRecordUnique acc).1.map (fun r => r.tik_number)).Nodup ∧
      (∀ x, x ∈ (l.foldl addRecordUnique acc).1.map (fun r => r.tik_number) ↔
        x ∈ acc.1.map (fun r => r.tik_number) ∨
          x ∈ l.map (fun r => r.tik_number)) ∧
      (∀ x, x ∈ (l.foldl addRecordUnique acc).2 ↔
        x ∈ (l.foldl addRecordUnique acc).1.map (fun r => r.tik_number)) := by
  induction l with
  | nil =>
    intro acc hinv hnd
    exact ⟨hnd, fun x => by simp, hinv⟩
  | cons r t ih =>
    intro acc hinv hnd
    simp only [List.foldl_cons]
    by_cases hmem : r.tik_number ∈ acc.2
    · have hstep : addRecordUnique acc r = acc := by
        simp [addRecordUnique, hmem]
      rw [hstep]
      obtain ⟨h1, h2, h3⟩ := ih acc hinv hnd
      refine ⟨h1, fun x => ?_, h3⟩
      rw [h2 x]
      have hr := (hinv r.tik_number).mp hmem
      simp only [List.map_cons, List.mem_cons]
      constructor
      · rintro (hx | hx)
        · exact Or.inl hx
        · exact Or.inr (Or.inr hx)
      · rintro (hx | hx | hx)
        · exact Or.inl hx
        · subst hx; exact Or.inl hr
        · exact Or.inr hx
    · have hstep : addRecordUnique acc r =
          (acc.1 ++ [r], r.tik_number :: acc.2) := by
        simp [addRecordUnique, hmem]
      rw [hstep]
      have hr2 : r.tik_number ∉ acc.1.map (fun r => r.tik_number) :=
        fun hx => hmem ((hinv _).mpr hx)
      have hinv2 : ∀ x, x ∈ (acc.1 ++ [r], r.tik_number :: acc.2).2 ↔
          x ∈ (acc.1 ++ [r], r.tik_number :: acc.2).1.map
            (fun r => r.tik_number) := by
        intro x
        have := hinv x
        simp only [List.mem_cons, List.map_append, List.mem_append,
          List.map_cons, List.map_nil, List.mem_singleton,
          List.not_mem_nil, or_false] at *
        tauto
      have hnd2 : ((acc.1 ++ [r], r.tik_number :: acc.2).1.map
          (fun r => r.tik_number)).Nodup := by
        simp only [List.map_append, List.map_cons, List.map_nil]
        rw [List.nodup_append]
        refine ⟨hnd, List.nodup_singleton _, ?_⟩
        intro a ha hb
        simp only [List.mem_singleton] at hb
        subst hb
        exact hr2 ha
      obtain ⟨h1, h2, h3⟩ := ih _ hinv2 hnd2
      refine ⟨h1, fun x => ?_, h3⟩
      rw [h2 x]
      simp only [List.map_append, List.mem_append, List.map_cons,
        List.mem_cons, List.map_nil, List.mem_singleton, List.not_mem_nil,
        or_false]
      tauto

/-- Nothing already accumulated is ever dropped by the dedup fold. -/
theorem addRecordUnique_foldl_sub (l : List BuildingRecord) :
    ∀ (acc : List BuildingRecord × List String) (r : BuildingRecord),
      r ∈ acc.1 → r ∈ (l.foldl addRecordUnique acc).1 := by
  induction l with
  | nil => intro acc r h; simpa using h
  | cons a t ih =>
    intro acc r h
    simp only [List.foldl_cons]
    apply ih
    unfold addRecordUnique
    split
    · exact h
    · simp [h]

/-- Everything the dedup fold accumulates came from the accumulator or the
folded list. -/
theorem addRecordUnique_foldl_sup (l : List BuildingRecord) :
    ∀ (acc : List BuildingRecord × List String) (r : BuildingRecord),
      r ∈ (l.foldl addRecordUnique acc).1 → r ∈ acc.1 ∨ r ∈ l := by
  induction l with
  | nil => intro acc r h; exact Or.inl (by simpa using h)
  | cons a t ih =>
    intro acc r h
    simp only [List.foldl_cons] at h
    rcases ih _ r h with hx | hx
    · revert hx
      unfold addRecordUnique
      split
      · intro hx; exact Or.inl hx
      · intro hx
        rcases List.mem_append.mp hx with hy | hy
        · exact Or.inl hy
        · simp only [List.mem_singleton] at hy
          subst hy
          exact Or.inr (by simp)
    · exact Or.inr (List.mem_cons_of_mem _ hx)

/-- A fold of per-item folds is the fold over the flattened mapped list. -/
theorem foldl_over_map {α β γ : Type} (g : γ → List α) (f : β → α → β) :
    ∀ (xs : List γ) (b : β),
      xs.foldl (fun acc c => (g c).foldl f acc) b =
        ((xs.map g).flatten).foldl f b := by
  intro xs
  induction xs with
  | nil => intro b; rfl
  | cons c t ih =>
    intro b
    simp only [List.foldl_cons, List.map_cons, List.flatten_cons,
      List.foldl_append]
    exact ih _

/-- C7: in both the single-process and the multi-process merge path of
`fetch_building_records`, the final record set has at most one record per
tik number; any tik surfaced by any probe of any street (or by any worker
chunk) appears exactly once in the final set. -/
theorem record_dedup_invariant (probe : Street → Nat → ProbeOutcome)
    (streets : List Street) (chunkResults : List (List BuildingRecord))
    (x : String) :
    ((fetchBuildingRecords probe streets).map (fun r => r.tik_number)).Nodup ∧
    (x ∈ ((streets.map fun st => (fetchRecordsForStreet (probe st) st).1).flatten).map
        (fun r => r.tik_number) →
      ((fetchBuildingRecords probe streets).map
        (fun r => r.tik_number)).count x = 1) ∧
    ((fetchBuildingRecordsMulti chunkResults).map
      (fun r => r.tik_number)).Nodup ∧
    (x ∈ (chunkResults.flatten).map (fun r => r.tik_number) →
      ((fetchBuildingRecordsMulti chunkResults).map
        (fun r => r.tik_number)).count x = 1) := by
  have hbase : ∀ y : String,
      y ∈ (([], []) : List BuildingRecord × List String).2 ↔
        y ∈ (([], []) : List BuildingRecord × List String).1.map
          (fun r => r.tik_number) := by
    intro y; simp
  have hbase2 : ((([], []) : List BuildingRecord × List String).1.map
      (fun r => r.tik_number)).Nodup := by simp
  have e1 : fetchBuildingRecords probe streets =
      (((streets.map fun st =>
          (fetchRecordsForStreet (probe st) st).1).flatten).foldl
        addRecordUnique ([], [])).1 := by
    unfold fetchBuildingRecords
    rw [foldl_over_map (fun st => (fetchRecordsForStreet (probe st) st).1)
      addRecordUnique streets ([], [])]
  have e2 : fetchBuildingRecordsMulti chunkResults =
      ((chunkResults.flatten).foldl addRecordUnique ([], [])).1 := by
    unfold fetchBuildingRecordsMulti
    rw [foldl_over_map (fun c => c) addRecordUnique chunkResults ([], [])]
    simp
  obtain ⟨s1, s2, -⟩ := addRecordUnique_foldl
    ((streets.map fun st => (fetchRecordsForStreet (probe st) st).1).flatten)
    ([], []) hbase hbase2
  obtain ⟨m1, m2, -⟩ := addRecordUnique_foldl (chunkResults.flatten)
    ([], []) hbase hbase2
  rw [e1, e2]
  refine ⟨s1, fun hx => ?_, m1, fun hx => ?_⟩
  · exact List.count_eq_one_of_mem s1 ((s2 x).mpr (Or.inr hx))
  · exact List.count_eq_one_of_mem m1 ((m2 x).mpr (Or.inr hx))

/-- Witness for `record_dedup_invariant`: the witness probe surfaces tik
930008800 from two distinct (street, house) coordinates, and two worker
chunks both carrying that tik; the final sets hold it exactly once. -/
theorem record_dedup_invariant_witness :
    (((fetchBuildingRecords wProbe [{ code := 389, name := "sample three" }]).map
        (fun r => r.tik_number)).count "930008800" = 1) ∧
    (((fetchBuildingRecordsMulti
        [[{ tik_number := "930008800", street_code := 389, house_number := 1 }],
         [{ tik_number := "930008800", street_code := 389, house_number := 2 }]]).map
        (fun r => r.tik_number)).count "930008800" = 1) := by
  obtain ⟨-, h2, -, h4⟩ := record_dedup_invariant wProbe
    [{ code := 389, name := "sample three" }]
    [[{ tik_number := "930008800", street_code := 389, house_number := 1 }],
     [{ tik_number := "930008800", street_code := 389, house_number := 2 }]]
    "930008800"
  exact ⟨h2 (by decide), h4 (by decide)⟩

/-! ### Claim C10: frame property of retry_failed_details -/

/-- `k in m` holds exactly when `k` is among the dict keys. -/
theorem dictContains_iff {α : Type} (m : List (String × α)) (k : String) :
    dictContains m k = true ↔ k ∈ m.map (fun p => p.1) := by
  simp only [dictContains, List.any_eq_true, beq_iff_eq, List.mem_map]

/-- Assigning an existing key leaves the key list untouched. -/
theorem dictAssign_keys_mem {α : Type} (m : List (String × α)) (k : String)
    (v : α) (h : k ∈ m.map (fun p => p.1)) :
    (dictAssign m k v).map (fun p => p.1) = m.map (fun p => p.1) := by
  have hc : m.any (fun p => p.1 == k) = true := (dictContains_iff m k).mpr h
  simp only [dictAssign, hc, if_true]
  rw [List.map_map]
  apply List.map_congr_left
  intro p _
  by_cases hpk : p.1 = k
  · simp [hpk]
  · simp [hpk]

/-- Assigning a fresh key appends it to the key list. -/
theorem dictAssign_keys_new {α : Type} (m : List (String × α)) (k : String)
    (v : α) (h : ¬ k ∈ m.map (fun p => p.1)) :
    (dictAssign m k v).map (fun p => p.1) = m.map (fun p => p.1) ++ [k] := by
  have hc : m.any (fun p => p.1 == k) = false := by
    rw [← Bool.not_eq_true]
    exact fun hx => h ((dictContains_iff m k).mp hx)
  simp [dictAssign, hc]

/-- Entries whose key differs from the assigned one are untouched by the
assignment. -/
theorem dictAssign_mem_of_ne {α : Type} (m : List (String × α)) (k : String)
    (v : α) (p : String × α) (hne : p.1 ≠ k) :
    p ∈ dictAssign m k v ↔ p ∈ m := by
  unfold dictAssign
  split
  · constructor
    · intro hp
      obtain ⟨q, hq, he⟩ := List.mem_map.mp hp
      by_cases hqk : q.1 = k
      · rw [if_pos (by simp [hqk])] at he
        exact absurd (by rw [← he]) hne
      · rw [if_neg (by simp [hqk])] at he
        rw [← he]; exact hq
    · intro hp
      exact List.mem_map.mpr ⟨p, hp, by rw [if_neg (by simp [hne])]⟩
  · rw [List.mem_append]
    constructor
    · rintro (hp | hp)
      · exact hp
      · simp only [List.mem_singleton] at hp
        exact absurd (by rw [hp]) hne
    · exact fun hp => Or.inl hp

/-- Duplicate-free keys are preserved by assignment. -/
theorem dictAssign_nodup {α : Type} (m : List (String × α)) (k : String)
    (v : α) (hnd : (m.map (fun p => p.1)).Nodup) :
    ((dictAssign m k v).map (fun p => p.1)).Nodup := by
  by_cases h : k ∈ m.map (fun p => p.1)
  · rw [dictAssign_keys_mem m k v h]; exact hnd
  · rw [dictAssign_keys_new m k v h]
    rw [List.nodup_append]
    refine ⟨hnd, List.nodup_singleton _, ?_⟩
    intro a ha hb
    simp only [List.mem_singleton] at hb
    subst hb
    exact h ha

/-- A dict built from key/value pairs has duplicate-free keys. -/
theorem dictOfList_nodup {α : Type} (entries : List (String × α)) :
    ((dictOfList entries).map (fun p => p.1)).Nodup := by
  unfold dictOfList
  suffices H : ∀ m : List (String × α), (m.map (fun p => p.1)).Nodup →
      ((entries.foldl (fun m e => dictAssign m e.1 e.2) m).map
        (fun p => p.1)).Nodup by
    exact H [] (by simp)
  induction entries with
  | nil => intro m hm; simpa using hm
  | cons e t ih =>
    intro m hm
    simp only [List.foldl_cons]
    exact ih _ (dictAssign_nodup m e.1 e.2 hm)

/-- In a dict of `(d.tik_number, d)` entries — and in any dict updated only
with values stored under their own tik number — every value carries its
key as tik number. -/
theorem dictAssign_keyed (m : List (String × BuildingDetail)) (k : String)
    (v : BuildingDetail) (hm : ∀ p ∈ m, p.2.tik_number = p.1)
    (hv : v.tik_number = k) :
    ∀ p ∈ dictAssign m k v, p.2.tik_number = p.1 := by
  intro p hp
  unfold dictAssign at hp
  split at hp
  · obtain ⟨q, hq, he⟩ := List.mem_map.mp hp
    by_cases hqk : q.1 = k
    · rw [if_pos (by simp [hqk])] at he
      rw [← he]
      exact hv
    · rw [if_neg (by simp [hqk])] at he
      rw [← he]
      exact hm q hq
  · rcases List.mem_append.mp hp with h | h
    · exact hm p h
    · simp only [List.mem_singleton] at h
      rw [h]
      exact hv

/-- All values of `dictOfList ((d.tik_number, d) for d)` carry their key. -/
theorem dictOfList_keyed (details : List BuildingDetail) :
    ∀ p ∈ dictOfList (details.map fun d => (d.tik_number, d)),
      p.2.tik_number = p.1 := by
  unfold dictOfList
  suffices H : ∀ (entries : List (String × BuildingDetail))
      (m : List (String × BuildingDetail)),
      (∀ e ∈ entries, e.2.tik_number = e.1) →
      (∀ p ∈ m, p.2.tik_number = p.1) →
      ∀ p ∈ entries.foldl (fun m e => dictAssign m e.1 e.2) m,
        p.2.tik_number = p.1 by
    refine H _ [] ?_ (by simp)
    intro e he
    obtain ⟨d, -, hd⟩ := List.mem_map.mp he
    rw [← hd]
  intro entries
  induction entries with
  | nil => intro m _ hm p hp; exact hm p hp
  | cons e t ih =>
    intro m hent hm
    simp only [List.foldl_cons]
    exact ih _ (fun x hx => hent x (List.mem_cons_of_mem _ hx))
      (dictAssign_keyed m e.1 e.2 hm (hent e (by simp)))

/-- The retry fold assigns only keys already present, so the dict keys —
order included — are unchanged. -/
theorem retryFold_keys (fetchOne : String → BuildingDetail)
    (hfetch : ∀ t, (fetchOne t).tik_number = t) (ts : List String) :
    ∀ m : List (String × BuildingDetail), (∀ t ∈ ts, t ∈ m.map (fun p => p.1)) →
      ((ts.foldl (fun m t => dictAssign m (fetchOne t).tik_number (fetchOne t))
        m).map (fun p => p.1)) = m.map (fun p => p.1) := by
  induction ts with
  | nil => intro m _; rfl
  | cons t ts2 ih =>
    intro m hts
    simp only [List.foldl_cons]
    have hk : (dictAssign m (fetchOne t).tik_number (fetchOne t)).map
        (fun p => p.1) = m.map (fun p => p.1) := by
      rw [hfetch t]
      exact dictAssign_keys_mem m t _ (hts t (by simp))
    rw [ih _ (fun x hx => by rw [hk]; exact hts x (List.mem_cons_of_mem _ hx)),
      hk]

/-- Entries whose key is never re-fetched survive the retry fold
unchanged. -/
theorem retryFold_preserve (fetchOne : String → BuildingDetail)
    (hfetch : ∀ t, (fetchOne t).tik_number = t) (ts : List String) :
    ∀ (m : List (String × BuildingDetail)) (p : String × BuildingDetail),
      p ∈ m → ¬ p.1 ∈ ts →
      p ∈ ts.foldl (fun m t => dictAssign m (fetchOne t).tik_number
        (fetchOne t)) m := by
  induction ts with
  | nil => intro m p hp _; simpa using hp
  | cons t ts2 ih =>
    intro m p hp hne
    simp only [List.foldl_cons]
    refine ih _ p ?_ (fun hx => hne (List.mem_cons_of_mem _ hx))
    rw [hfetch t]
    exact (dictAssign_mem_of_ne m t _ p (fun he => hne (by simp [he]))).mpr hp

/-- Retry-fold results keep carrying their key as tik number. -/
theorem retryFold_keyed (fetchOne : String → BuildingDetail)
    (ts : List String) :
    ∀ m : List (String × BuildingDetail), (∀ p ∈ m, p.2.tik_number = p.1) →
      ∀ p ∈ ts.foldl (fun m t => dictAssign m (fetchOne t).tik_number
        (fetchOne t)) m, p.2.tik_number = p.1 := by
  induction ts with
  | nil => intro m hm p hp; exact hm p hp
  | cons t ts2 ih =>
    intro m hm
    simp only [List.foldl_cons]
    exact ih _ (dictAssign_keyed m _ _ hm rfl)

/-- With duplicate-free keys, an entry is determined by its key. -/
theorem entry_unique_of_nodup {α : Type} (m : List (String × α))
    (hnd : (m.map (fun p => p.1)).Nodup) (p q : String × α)
    (hp : p ∈ m) (hq : q ∈ m) (he : p.1 = q.1) : p = q := by
  induction m with
  | nil => simp at hp
  | cons a t ih =>
    simp only [List.map_cons, List.nodup_cons] at hnd
    rcases List.mem_cons.mp hp with hp1 | hp1 <;>
      rcases List.mem_cons.mp hq with hq1 | hq1
    · rw [hp1, hq1]
    · exact absurd (List.mem_map.mpr ⟨q, hq1, by rw [← he, hp1]⟩) hnd.1
    · exact absurd (List.mem_map.mpr ⟨p, hp1, by rw [he, hq1]⟩) hnd.1
    · exact ih hnd.2 hp1 hq1

/-- C10: `retry_failed_details` re-fetches exactly the identifiers whose
persisted `fetch_status` is `error`; every entry whose status is `success`
appears unchanged in the updated output; and the key list of the output —
order included — equals the key list of the persisted dict (for a fetch
oracle that, like `_fetch_single_detail`, returns details carrying the
requested tik number). -/
theorem retry_failed_frame (fetchOne : String → BuildingDetail)
    (persisted : List BuildingDetail)
    (hfetch : ∀ t, (fetchOne t).tik_number = t) :
    (∀ t ∈ (retryFailedDetails fetchOne { detailsJson := some persisted }).2.1,
      ∃ d, (t, d) ∈ dictOfList (persisted.map fun d => (d.tik_number, d)) ∧
        d.fetch_status = "error") ∧
    (∀ p ∈ dictOfList (persisted.map fun d => (d.tik_number, d)),
      p.2.fetch_status = "success" →
        p.2 ∈ (retryFailedDetails fetchOne { detailsJson := some persisted }).1) ∧
    ((retryFailedDetails fetchOne { detailsJson := some persisted }).1.map
        (fun d => d.tik_number)) =
      (dictOfList (persisted.map fun d => (d.tik_number, d))).map
        (fun p => p.1) := by
  have hkeyed := dictOfList_keyed persisted
  have hnd := dictOfList_nodup (persisted.map fun d => (d.tik_number, d))
  set mD := dictOfList (persisted.map fun d => (d.tik_number, d)) with hmD
  have hvals_keys : ∀ m : List (String × BuildingDetail),
      (∀ p ∈ m, p.2.tik_number = p.1) →
      (m.map (fun p => p.2)).map (fun d => d.tik_number) =
        m.map (fun p => p.1) := by
    intro m hm
    rw [List.map_map]
    exact List.map_congr_left (fun p hp => hm p hp)
  unfold retryFailedDetails
  simp only [← hmD]
  by_cases hempty :
      ((mD.filter (fun p => p.2.fetch_status == "error")).map
        (fun p => p.1)).isEmpty
  · rw [if_pos hempty]
    refine ⟨by simp, fun p hp _ => List.mem_map.mpr ⟨p, hp, rfl⟩, ?_⟩
    exact hvals_keys mD hkeyed
  · rw [if_neg hempty]
    refine ⟨?_, ?_, ?_⟩
    · intro t ht
      simp only at ht
      obtain ⟨p, hp, hpt⟩ := List.mem_map.mp ht
      obtain ⟨hpm, hperr⟩ := List.mem_filter.mp hp
      refine ⟨p.2, ?_, by simpa using hperr⟩
      rw [← hpt]
      exact hpm
    · intro p hp hsucc
      have hnotfail : ¬ p.1 ∈ (mD.filter
          (fun p => p.2.fetch_status == "error")).map (fun p => p.1) := by
        intro hx
        obtain ⟨q, hq, hqp⟩ := List.mem_map.mp hx
        obtain ⟨hqm, hqerr⟩ := List.mem_filter.mp hq
        have : q = p := entry_unique_of_nodup mD hnd q p hqm hp hqp
        rw [this] at hqerr
        rw [hsucc] at hqerr
        simp at hqerr
      refine List.mem_map.mpr ⟨p, ?_, rfl⟩
      exact retryFold_preserve fetchOne hfetch _ mD p hp hnotfail
    · have hsub : ∀ t ∈ (mD.filter
          (fun p => p.2.fetch_status == "error")).map (fun p => p.1),
          t ∈ mD.map (fun p => p.1) := by
        intro t ht
        obtain ⟨p, hp, hpt⟩ := List.mem_map.mp ht
        exact List.mem_map.mpr ⟨p, (List.mem_filter.mp hp).1, hpt⟩
      have hupd := retryFold_keys fetchOne hfetch
        ((mD.filter (fun p => p.2.fetch_status == "error")).map
          (fun p => p.1)) mD hsub
      have hkeyed2 := retryFold_keyed fetchOne
        ((mD.filter (fun p => p.2.fetch_status == "error")).map
          (fun p => p.1)) mD hkeyed
      simp only
      rw [hvals_keys _ hkeyed2, hupd]

/-- Witness for `retry_failed_frame` on `wPersisted` (one success, one
error) and a fetch oracle preserving tik numbers: the success entry
survives unchanged and the key list is preserved. -/
theorem retry_failed_frame_witness :
    ({ tik_number := "500100", address := "kept address",
        fetch_status := "success" } : BuildingDetail) ∈
      (retryFailedDetails wFetch { detailsJson := some wPersisted }).1 ∧
    ((retryFailedDetails wFetch { detailsJson := some wPersisted }).1.map
        (fun d => d.tik_number)) =
      (dictOfList (wPersisted.map fun d => (d.tik_number, d))).map
        (fun p => p.1) := by
  obtain ⟨-, h2, h3⟩ := retry_failed_frame wFetch wPersisted (fun t => rfl)
  refine ⟨?_, h3⟩
  exact h2 ("500100",
    { tik_number := "500100", address := "kept address",
      fetch_status := "success" }) (by decide) (by decide)

/-! ### Claim C5: incremental diff semantics -/

/-- The persisted street snapshot is the fresh scan sorted by code — a
permutation of the fresh set. -/
theorem discoverStreets_perm (baseline freshStreets : List Street) :
    ((discoverStreets baseline freshStreets).1).Perm freshStreets :=
  List.mergeSort_perm freshStreets _

/-- The new streets are exactly the fresh streets whose code is absent
from the baseline. -/
theorem discoverStreets_new (baseline freshStreets : List Street) :
    (discoverStreets baseline freshStreets).2.1 =
      freshStreets.filter
        (fun s => ¬ s.code ∈ baseline.map (fun b => b.code)) := by
  unfold discoverStreets
  simp only
  apply List.filter_congr
  intro s hs
  rw [decide_eq_decide]
  simp only [List.mem_filter, decide_eq_true_eq]
  constructor
  · rintro ⟨-, h⟩; exact h
  · intro h; exact ⟨List.mem_map.mpr ⟨s, hs, rfl⟩, h⟩

/-- The removed codes are exactly the baseline codes missing from the
fresh scan. -/
theorem discoverStreets_removed (baseline freshStreets : List Street) :
    ∀ c, c ∈ (discoverStreets baseline freshStreets).2.2 ↔
      (c ∈ baseline.map (fun b => b.code) ∧
        ¬ c ∈ freshStreets.map (fun b => b.code)) := by
  intro c
  unfold discoverStreets
  simp [List.mem_filter]

/-- The persisted street snapshot is sorted by code. -/
theorem discoverStreets_sorted (baseline freshStreets : List Street) :
    ((discoverStreets baseline freshStreets).1).Pairwise
      (fun a b => a.code ≤ b.code) := by
  unfold discoverStreets
  simp only
  have h := @List.sorted_mergeSort Street
    (fun a b : Street => decide (a.code ≤ b.code))
    (fun a b c hab hbc => by
      simp only [decide_eq_true_eq] at *
      omega)
    (fun a b => by
      simp only [Bool.or_eq_true, decide_eq_true_eq]
      exact Nat.le_total a.code b.code)
    freshStreets
  exact h.imp (fun hab => by simpa using hab)

/-- No previously persisted record is lost by the incremental merge. -/
theorem mergeNewRecords_keep (ex nw : List BuildingRecord) :
    ∀ r ∈ ex, r ∈ mergeNewRecords ex nw := by
  intro r hr
  exact addRecordUnique_foldl_sub nw (ex, ex.map (fun x => x.tik_number)) r hr

/-- The incremental merge holds only old records and newly enumerated
ones. -/
theorem mergeNewRecords_sub (ex nw : List BuildingRecord) :
    ∀ r ∈ mergeNewRecords ex nw, r ∈ ex ∨ r ∈ nw := by
  intro r hr
  unfold mergeNewRecords at hr
  exact addRecordUnique_foldl_sup nw _ r hr

/-- The incremental merge keeps tik numbers duplicate-free. -/
theorem mergeNewRecords_nodup (ex nw : List BuildingRecord)
    (hnd : (ex.map (fun x => x.tik_number)).Nodup) :
    ((mergeNewRecords ex nw).map (fun x => x.tik_number)).Nodup := by
  unfold mergeNewRecords
  exact (addRecordUnique_foldl nw _ (fun _ => Iff.rfl) hnd).1

/-- The incremental merge realizes the union by tik number: a tik is in the
merged snapshot exactly when it was in the old snapshot or among the newly
enumerated records — in particular every newly enumerated record enters the
snapshot under its tik. -/
theorem mergeNewRecords_union (ex nw : List BuildingRecord)
    (hnd : (ex.map (fun x => x.tik_number)).Nodup) :
    ∀ x, x ∈ (mergeNewRecords ex nw).map (fun x => x.tik_number) ↔
      (x ∈ ex.map (fun x => x.tik_number) ∨
        x ∈ nw.map (fun x => x.tik_number)) := by
  unfold mergeNewRecords
  exact (addRecordUnique_foldl nw _ (fun _ => Iff.rfl) hnd).2.1

/-- `runIncrementalCrawl` in branch form. -/
theorem runIncrementalCrawl_eq (baseline freshStreets : List Street)
    (existingRecords : List BuildingRecord)
    (enumerate : List Street → List BuildingRecord) :
    runIncrementalCrawl baseline freshStreets existingRecords enumerate =
      if ((discoverStreets baseline freshStreets).2.1).isEmpty then
        ((discoverStreets baseline freshStreets).1, existingRecords, [])
      else
        ((discoverStreets baseline freshStreets).1,
          mergeNewRecords existingRecords
            (enumerate ((discoverStreets baseline freshStreets).2.1)),
          (discoverStreets baseline freshStreets).2.1) := rfl

/-- C5: for every baseline snapshot and fresh discovery result, the
persisted street snapshot is exactly the fresh set sorted by code
(replacement, not union); the street codes diffed are `fresh − baseline`
(the streets enumerated afterwards) and `baseline − fresh` (the removed
codes, which are only reported); records are fetched only for the new
streets; the persisted record snapshot keeps every previously persisted
record (removed codes never delete), contains only old records and records
enumerated from the new streets, stays deduplicated by tik number, and —
when new streets exist — is exactly the union by tik number of the old
records with the newly enumerated ones (every newly enumerated record
enters the snapshot under its tik); with no new streets the snapshot is
the old record set unchanged. -/
theorem incremental_diff_semantics (baseline freshStreets : List Street)
    (existingRecords : List BuildingRecord)
    (enumerate : List Street → List BuildingRecord)
    (hnd : (existingRecords.map (fun r => r.tik_number)).Nodup) :
    (∀ s, s ∈ (runIncrementalCrawl baseline freshStreets existingRecords
        enumerate).1 ↔ s ∈ freshStreets) ∧
    ((runIncrementalCrawl baseline freshStreets existingRecords
        enumerate).1).Pairwise (fun a b => a.code ≤ b.code) ∧
    (runIncrementalCrawl baseline freshStreets existingRecords
        enumerate).2.2 =
      freshStreets.filter
        (fun s => ¬ s.code ∈ baseline.map (fun b => b.code)) ∧
    (∀ c, c ∈ (discoverStreets baseline freshStreets).2.2 ↔
      (c ∈ baseline.map (fun b => b.code) ∧
        ¬ c ∈ freshStreets.map (fun b => b.code))) ∧
    (∀ r ∈ existingRecords,
      r ∈ (runIncrementalCrawl baseline freshStreets existingRecords
        enumerate).2.1) ∧
    (∀ r ∈ (runIncrementalCrawl baseline freshStreets existingRecords
        enumerate).2.1,
      r ∈ existingRecords ∨
        r ∈ enumerate ((discoverStreets baseline freshStreets).2.1)) ∧
    ((runIncrementalCrawl baseline freshStreets existingRecords
        enumerate).2.1.map (fun r => r.tik_number)).Nodup ∧
    (¬ ((discoverStreets baseline freshStreets).2.1).isEmpty →
      ∀ x, x ∈ ((runIncrementalCrawl baseline freshStreets existingRecords
          enumerate).2.1.map (fun r => r.tik_number)) ↔
        (x ∈ existingRecords.map (fun r => r.tik_number) ∨
          x ∈ (enumerate ((discoverStreets baseline freshStreets).2.1)).map
            (fun r => r.tik_number))) ∧
    (((discoverStreets baseline freshStreets).2.1).isEmpty →
      (runIncrementalCrawl baseline freshStreets existingRecords
        enumerate).2.1 = existingRecords) := by
  rw [runIncrementalCrawl_eq]
  by_cases h : ((discoverStreets baseline freshStreets).2.1).isEmpty
  · rw [if_pos h]
    refine ⟨fun s => (discoverStreets_perm baseline freshStreets).mem_iff,
      discoverStreets_sorted baseline freshStreets, ?_,
      discoverStreets_removed baseline freshStreets,
      fun r hr => hr, fun r hr => Or.inl hr, hnd,
      fun hx => absurd h hx, fun _ => rfl⟩
    rw [← discoverStreets_new baseline freshStreets]
    exact (List.isEmpty_iff.mp h).symm
  · rw [if_neg h]
    refine ⟨fun s => (discoverStreets_perm baseline freshStreets).mem_iff,
      discoverStreets_sorted baseline freshStreets,
      discoverStreets_new baseline freshStreets,
      discoverStreets_removed baseline freshStreets, ?_, ?_, ?_, ?_,
      fun hx => absurd hx h⟩
    · intro r hr
      exact mergeNewRecords_keep existingRecords
        (enumerate ((discoverStreets baseline freshStreets).2.1)) r hr
    · intro r hr
      exact mergeNewRecords_sub existingRecords
        (enumerate ((discoverStreets baseline freshStreets).2.1)) r hr
    · exact mergeNewRecords_nodup existingRecords
        (enumerate ((discoverStreets baseline freshStreets).2.1)) hnd
    · intro _
      exact mergeNewRecords_union existingRecords
        (enumerate ((discoverStreets baseline freshStreets).2.1)) hnd

/-- Witness for `incremental_diff_semantics` at the spec example: baseline
codes {1, 2, 3}, fresh scan {4, 2, 3}.  Only street 4 is enumerated,
street 1 leaves the persisted snapshot while street 4 enters it, code 1 is
reported removed, the old record survives, and the newly enumerated
street-4 record (tik 400400) enters the persisted record snapshot. -/
theorem incremental_diff_semantics_witness :
    (runIncrementalCrawl wBaselineStreets wFreshStreets wExistingRecords
        wEnumerate).2.2 = [{ code := 4, name := "four" }] ∧
    ({ code := 1, name := "one" } : Street) ∉
      (runIncrementalCrawl wBaselineStreets wFreshStreets wExistingRecords
        wEnumerate).1 ∧
    ({ code := 4, name := "four" } : Street) ∈
      (runIncrementalCrawl wBaselineStreets wFreshStreets wExistingRecords
        wEnumerate).1 ∧
    1 ∈ (discoverStreets wBaselineStreets wFreshStreets).2.2 ∧
    ({ tik_number := "100111", street_code := 1,
        house_number := 4 } : BuildingRecord) ∈
      (runIncrementalCrawl wBaselineStreets wFreshStreets wExistingRecords
        wEnumerate).2.1 ∧
    "400400" ∈ ((runIncrementalCrawl wBaselineStreets wFreshStreets
        wExistingRecords wEnumerate).2.1.map (fun r => r.tik_number)) := by
  obtain ⟨h1, -, h3, h4, h5, -, -, h8, -⟩ := incremental_diff_semantics
    wBaselineStreets wFreshStreets wExistingRecords wEnumerate (by decide)
  refine ⟨h3.trans (by decide), ?_, ?_, ?_, ?_, ?_⟩
  · intro hx
    exact absurd ((h1 _).mp hx) (by decide)
  · exact (h1 _).mpr (by decide)
  · exact (h4 1).mpr (by decide)
  · exact h5 _ (by decide)
  · exact (h8 (by decide) "400400").mpr (Or.inr (by decide))

end Complot
